import Mathlib

/-
Verification of the resilient HTTP client core of the hyperstack-mcp-server
repository, shallowly embedded from src/client/base.py, src/exceptions.py,
src/config.py and src/utils/request_utils.py.
-/

namespace HSMCP

/-- JSON values, as decoded by response.json in src/client/base.py. -/
inductive Json where
  | null
  | bool (b : Bool)
  | num (n : Int)
  | str (s : String)
  | arr (xs : List Json)
  | obj (fields : List (String × Json))

/-- The Python exception universe relevant to BaseAsyncClient: raw
aiohttp/asyncio transport exceptions, and the typed library exceptions of
src/exceptions.py that BaseAsyncClient.request raises. -/
inductive PyExc where
  /-- builtins.TimeoutError; on Python 3.11+ asyncio.TimeoutError is an alias of it. -/
  | timeoutError
  /-- aiohttp.ClientConnectorError, a subclass of aiohttp.ClientError. -/
  | clientConnectorError
  /-- aiohttp.ServerTimeoutError, subclass of both aiohttp.ClientError and asyncio.TimeoutError. -/
  | serverTimeoutError
  /-- aiohttp.ClientResponseError with its status and message, subclass of aiohttp.ClientError. -/
  | clientResponseError (status : Nat) (message : String)
  /-- any other aiohttp.ClientError. -/
  | otherClientError (message : String)
  /-- src/exceptions.py APIError, subclass of HyperstackMCPError only. -/
  | apiError (message : String) (status_code : Option Nat) (response_body : Option String)
  /-- src/exceptions.py RateLimitError, subclass of APIError. -/
  | rateLimitError (message : String) (status_code : Option Nat) (response_body : Option String)
  /-- src/exceptions.py RequestTimeoutError, subclass of HyperstackMCPError only. -/
  | requestTimeoutError (message : String)
deriving DecidableEq

/-- isinstance(e, asyncio.TimeoutError) (= builtins.TimeoutError on Python 3.11+). -/
def PyExc.isTimeoutErrorClass : PyExc → Bool
  | .timeoutError => true
  | .serverTimeoutError => true
  | _ => false

/-- isinstance(e, aiohttp.ClientError). -/
def PyExc.isClientErrorClass : PyExc → Bool
  | .clientConnectorError => true
  | .serverTimeoutError => true
  | .clientResponseError _ _ => true
  | .otherClientError _ => true
  | _ => false

/-- isinstance(e, aiohttp.ClientResponseError). -/
def PyExc.isClientResponseErrorClass : PyExc → Bool
  | .clientResponseError _ _ => true
  | _ => false

/-- e is a raw transport-level (aiohttp or asyncio) exception, as the
underlying transport can raise them into the try block of request. -/
def PyExc.isRawTransport : PyExc → Bool
  | .timeoutError => true
  | .clientConnectorError => true
  | .serverTimeoutError => true
  | .clientResponseError _ _ => true
  | .otherClientError _ => true
  | _ => false

/-- e is one of the typed library exception kinds of src/exceptions.py that
BaseAsyncClient.request is meant to raise to its caller. -/
def PyExc.isTypedLibraryError : PyExc → Bool
  | .apiError _ _ _ => true
  | .rateLimitError _ _ _ => true
  | .requestTimeoutError _ => true
  | _ => false

/-- isinstance(e, RequestTimeoutError). -/
def PyExc.isRequestTimeoutKind : PyExc → Bool
  | .requestTimeoutError _ => true
  | _ => false

/-- isinstance(e, RateLimitError). -/
def PyExc.isRateLimitKind : PyExc → Bool
  | .rateLimitError _ _ _ => true
  | _ => false

/-- isinstance(e, APIError); RateLimitError is a subclass of APIError. -/
def PyExc.isApiErrorKind : PyExc → Bool
  | .apiError _ _ _ => true
  | .rateLimitError _ _ _ => true
  | _ => false

/-- HTTP status constants of src/client/base.py lines 18-21. -/
def HTTP_NO_CONTENT : Nat := 204

def HTTP_TOO_MANY_REQUESTS : Nat := 429

def HTTP_INTERNAL_SERVER_ERROR : Nat := 500

/-- Module constant MAX_RETRY_ATTEMPTS of src/client/base.py line 24. -/
def MAX_RETRY_ATTEMPTS : Nat := 3

/-- aioretry RetryInfo: number of failures so far (1-based at the first
failure) and the exception of the latest failed attempt. -/
structure RetryInfo where
  fails : Nat
  exception : Option PyExc

/-- BaseAsyncClient.retry policy of src/client/base.py lines 117-130
(method name in source: _retry_policy). Returns (abandon, delay seconds). -/
def retry_policy (info : RetryInfo) : Bool × ℚ :=
  match info.exception with
  | some e =>
    if e.isClientErrorClass || e.isTimeoutErrorClass then
      if info.fails ≥ MAX_RETRY_ATTEMPTS then (true, 0)
      else (false, (1 / 2 : ℚ) * 2 ^ (info.fails - 1))
    else (true, 0)
  | none => (true, 0)

/-- BaseAsyncClient.should retry of src/client/base.py lines 89-108 (method
name in source: _should_retry); defined in the source but never called. -/
def should_retry (max_retries : Nat) (e : PyExc) (attempt : Nat) : Bool :=
  if attempt ≥ max_retries then false
  else if e.isClientResponseErrorClass then
    match e with
    | .clientResponseError status _ =>
      decide (status ≥ HTTP_INTERNAL_SERVER_ERROR) || decide (status = HTTP_TOO_MANY_REQUESTS)
    | _ => false
  else
    match e with
    | .clientConnectorError => true
    | .serverTimeoutError => true
    | .timeoutError => true
    | _ => false

/-- The body of a transport response: either response.json() succeeds with a
value, or JSON decoding fails and response.text() yields the raw text. -/
inductive RespBody where
  | jsonBody (v : Json)
  | textBody (s : String)

/-- A raw transport response: HTTP status, reason phrase, body. -/
structure Response where
  status : Nat
  reason : String
  body : RespBody

/-- body preview logged on a JSON decode failure, src/client/base.py line 233:
text[:200] if text else None, sliced by code points. -/
def decode_failure_log_preview (text : String) : Option (List Char) :=
  if text.isEmpty then none else some (text.toList.take 200)

/-- Length of an optional logged preview (0 when nothing is logged). -/
def preview_len (o : Option (List Char)) : Nat :=
  match o with
  | none => 0
  | some p => p.length

/-- BaseAsyncClient handle response, src/client/base.py lines 213-239 (method
name in source: _handle_response). raise_for_status raises
aiohttp.ClientResponseError when status ≥ 400; then status 204 returns the
empty object; then the body is JSON decoded, a decode failure raising
APIError with the full body text. -/
def handle_response (r : Response) : Except PyExc Json :=
  if r.status ≥ 400 then
    .error (.clientResponseError r.status r.reason)
  else if r.status = HTTP_NO_CONTENT then
    .ok (.obj [])
  else
    match r.body with
    | .jsonBody v => .ok v
    | .textBody text =>
      .error (.apiError "Invalid response format" (some r.status) (some text))

/-- The except clauses of BaseAsyncClient.request, src/client/base.py lines
181-211, in source order: builtins.TimeoutError → RequestTimeoutError;
aiohttp.ClientResponseError → RateLimitError when status 429, else APIError;
any other aiohttp.ClientError → APIError; anything else propagates as is. -/
def translate_exception (e : PyExc) : PyExc :=
  if e.isTimeoutErrorClass then
    .requestTimeoutError "Request timed out"
  else
    match e with
    | .clientResponseError status message =>
      if status = HTTP_TOO_MANY_REQUESTS then
        .rateLimitError "Rate limit exceeded" (some status) (some message)
      else
        .apiError ("HTTP " ++ toString status ++ ": " ++ message) (some status) (some message)
    | _ =>
      if e.isClientErrorClass then
        .apiError "Client error" none none
      else e

/-- What the transport does on one attempt: return a response or raise. -/
inductive TransportOutcome where
  | resp (r : Response)
  | raised (e : PyExc)

/-- The outcome carries only what the transport itself can produce: a
response, or a raw aiohttp/asyncio exception. -/
def TransportOutcome.isRawOutcome : TransportOutcome → Bool
  | .resp _ => true
  | .raised e => e.isRawTransport

/-- One execution of the try/except body of BaseAsyncClient.request
(src/client/base.py lines 161-211) given the transport outcome of the
attempt: response handling happens inside the try block, so an exception it
raises flows through the same except clauses. -/
def request_attempt (o : TransportOutcome) : Except PyExc Json :=
  match o with
  | .resp r =>
    match handle_response r with
    | .ok v => .ok v
    | .error e => .error (translate_exception e)
  | .raised e => .error (translate_exception e)

/-- Result of a logical request: the value returned or exception raised, the
number of transport calls made, and the backoff delays slept between calls. -/
structure ExecResult where
  result : Except PyExc Json
  calls : Nat
  delays : List ℚ

/-- The aioretry driver wrapped around request by the retry decorator of
src/client/base.py line 132: run an attempt; on success return; on an
exception, increment the failure count, consult the retry policy, re-raise
on abandon, else sleep the delay and run again. Parameterised by the stream
of transport outcomes; none when the stream is too short to finish. -/
def run_request_aux : Nat → List TransportOutcome → Option ExecResult
  | _, [] => none
  | fails, o :: rest =>
    match request_attempt o with
    | .ok v => some ⟨.ok v, 1, []⟩
    | .error e =>
      match retry_policy ⟨fails + 1, some e⟩ with
      | (true, _) => some ⟨.error e, 1, []⟩
      | (false, d) =>
        match run_request_aux (fails + 1) rest with
        | none => none
        | some res => some ⟨res.result, res.calls + 1, d :: res.delays⟩

/-- A logical request: the retry loop started with zero failures. -/
def run_request (outcomes : List TransportOutcome) : Option ExecResult :=
  run_request_aux 0 outcomes

/-- Python str.rstrip applied with the single character slash, as in
base_url.rstrip applied in src/client/base.py line 38: removes ALL trailing
slash characters. -/
def py_rstrip_slash (s : String) : String :=
  String.mk ((s.toList.reverse.dropWhile (· == '/')).reverse)

/-- Python str.lstrip applied with the single character slash, as applied to
endpoint in src/client/base.py line 146: removes ALL leading slashes. -/
def py_lstrip_slash (s : String) : String :=
  String.mk (s.toList.dropWhile (· == '/'))

/-- The request URL of src/client/base.py line 146 built on the base url
stored at line 38: f-string of the rstripped base, a slash, and the
lstripped endpoint. -/
def build_url (base_url endpoint : String) : String :=
  py_rstrip_slash base_url ++ "/" ++ py_lstrip_slash endpoint

/-- Removal of exactly one leading slash, when present. -/
def drop_one_leading_slash : List Char → List Char
  | '/' :: rest => rest
  | s => s

/-- Modelled from the claim wording for comparison with build_url: join the
base and the endpoint with exactly one slash after trimming exactly one
trailing slash from the base and exactly one leading slash from the
endpoint. -/
def build_url_claim_words (base_url endpoint : String) : String :=
  String.mk ((drop_one_leading_slash base_url.toList.reverse).reverse)
    ++ "/" ++ String.mk (drop_one_leading_slash endpoint.toList)

/-- The session slot of a client: the field holding None, a live session, or
a session that has been closed (close does not reset the field to None). -/
inductive SessionState where
  | noSession
  | live
  | closedSession
deriving DecidableEq

/-- Observable lifecycle state of one client: the session slot plus counts
of transport constructions and of transport close operations performed. -/
structure ClientState where
  session : SessionState
  creations : Nat
  transport_closes : Nat
deriving DecidableEq

/-- State of a client that never connected. -/
def initial_state : ClientState := ⟨.noSession, 0, 0⟩

/-- BaseAsyncClient.connect, src/client/base.py lines 63-81: when the
session field is None or the session is closed, construct a fresh transport
session; otherwise do nothing. -/
def connect (st : ClientState) : ClientState :=
  match st.session with
  | .live => st
  | _ => { session := .live, creations := st.creations + 1,
           transport_closes := st.transport_closes }

/-- BaseAsyncClient.close, src/client/base.py lines 83-87: when the session
field holds a session that is not closed, close it; otherwise do nothing. -/
def close (st : ClientState) : ClientState :=
  match st.session with
  | .live =>
    { session := .closedSession, creations := st.creations,
      transport_closes := st.transport_closes + 1 }
  | _ => st

/-- Events of the concurrency model for rate limiting, tagged with the
logical request (1 or 2) performing them. -/
inductive Ev where
  | acquire (req : Nat)
  | release (req : Nat)
  | transStart (req : Nat)
  | transEnd (req : Nat)
deriving DecidableEq

/-- Program order of one execution of BaseAsyncClient.request with rate
limiting enabled, from src/client/base.py lines 150-170: the helper at lines
110-115 acquires the semaphore and releases it when its own async-with scope
ends, and only then does the transport call run. -/
def rate_limited_request_events (req : Nat) : List Ev :=
  [.acquire req, .release req, .transStart req, .transEnd req]

/-- The event order the specification describes: the permit is held for the
duration of the transport call. Modelled from the spec for comparison. -/
def spec_request_events (req : Nat) : List Ev :=
  [.acquire req, .transStart req, .transEnd req, .release req]

/-- tr is an interleaving of the two event sequences as and bs. -/
def isMergeOf : List Ev → List Ev → List Ev → Bool
  | [], as, bs => as.isEmpty && bs.isEmpty
  | x :: tr, as, bs =>
    (match as with
     | a :: as2 => x == a && isMergeOf tr as2 bs
     | [] => false)
    ||
    (match bs with
     | b :: bs2 => x == b && isMergeOf tr as bs2
     | [] => false)

/-- Run a trace against a counting semaphore with the given number of free
permits: an acquire with no free permit would block there, making the trace
not schedulable, so the run yields none. -/
def semRun : Nat → List Ev → Option Nat
  | avail, [] => some avail
  | avail, e :: tr =>
    match e with
    | .acquire _ =>
      match avail with
      | 0 => none
      | n + 1 => semRun n tr
    | .release _ => semRun (avail + 1) tr
    | _ => semRun avail tr

/-- The trace is schedulable under a semaphore with the given permits. -/
def semOk (permits : Nat) (tr : List Ev) : Bool :=
  (semRun permits tr).isSome

/-- After the given events, request req has started but not finished its
transport call. -/
def inFlight (req : Nat) (pre : List Ev) : Bool :=
  pre.contains (.transStart req) && !(pre.contains (.transEnd req))

/-- Some moment of the trace has the transport calls of requests 1 and 2
both in flight. -/
def hasOverlap (tr : List Ev) : Bool :=
  (List.range (tr.length + 1)).any fun i =>
    inFlight 1 (tr.take i) && inFlight 2 (tr.take i)

/-- All interleavings of two event sequences, with enough fuel. -/
def allMergesFuel : Nat → List Ev → List Ev → List (List Ev)
  | 0, _, _ => []
  | _ + 1, [], bs => [bs]
  | _ + 1, a :: as, [] => (a :: as) :: []
  | n + 1, a :: as, b :: bs =>
    (allMergesFuel n as (b :: bs)).map (a :: ·) ++ (allMergesFuel n (a :: as) bs).map (b :: ·)

/-- All interleavings of two event sequences. -/
def allMerges (as bs : List Ev) : List (List Ev) :=
  allMergesFuel (as.length + bs.length) as bs

/-- The concrete schedule witnessing overlapping transport calls under one
permit: both requests pass through the rate limit helper before either
starts its transport call. -/
def overlap_trace : List Ev :=
  [.acquire 1, .release 1, .acquire 2, .release 2,
   .transStart 1, .transStart 2, .transEnd 1, .transEnd 2]

/-- Python values that can appear in a query parameter dict. -/
inductive PyVal where
  | pynone
  | pybool (b : Bool)
  | pystr (s : String)
  | pyint (n : Int)
deriving DecidableEq

/-- Python str applied to such a value. -/
def PyVal.pyStr : PyVal → String
  | .pynone => "None"
  | .pybool b => if b then "True" else "False"
  | .pystr s => s
  | .pyint n => toString n

/-- normalize_query_params of src/utils/request_utils.py: a dict
comprehension keeping entries whose value is not None, rendering bool via
truthiness as lowercase true/false and everything else via str. -/
def normalize_query_params (params : List (String × PyVal)) : List (String × String) :=
  params.filterMap fun kv =>
    match kv.2 with
    | .pynone => none
    | .pybool b => some (kv.1, if b then "true" else "false")
    | v => some (kv.1, v.pyStr)

/-- Modelled from the claim wording for comparison with
normalize_query_params: keep exactly the keys whose values are not None;
True maps to the string true, False to false, and every other non-None
value to its string representation. -/
def normalize_query_params_claim_words (params : List (String × PyVal)) : List (String × String) :=
  (params.filter fun kv =>
    match kv.2 with
    | .pynone => false
    | _ => true).map fun kv =>
      (kv.1,
        match kv.2 with
        | .pybool true => "true"
        | .pybool false => "false"
        | v => v.pyStr)

/-- The error carried by some run result is a typed library error (vacuously
true of a success, and of an unfinished run). -/
def result_error_is_typed : Option ExecResult → Bool
  | none => true
  | some r =>
    match r.result with
    | .ok _ => true
    | .error e => e.isTypedLibraryError

/-- The translated exception has the kind the error taxonomy assigns to the
raw exception e: timeouts become RequestTimeoutError, an HTTP 429 response
becomes RateLimitError, every other response error and client error becomes
APIError. -/
def kind_ok (e : PyExc) : Bool :=
  if e.isTimeoutErrorClass then (translate_exception e).isRequestTimeoutKind
  else
    match e with
    | .clientResponseError status _ =>
      if status = HTTP_TOO_MANY_REQUESTS then (translate_exception e).isRateLimitKind
      else (translate_exception e).isApiErrorKind && !(translate_exception e).isRateLimitKind
    | _ => (translate_exception e).isApiErrorKind

/-
Helper lemmas, shared by the claim theorems below.
-/

theorem all_takeWhile_eq_true (q : Char → Bool) (l : List Char) :
    (l.takeWhile q).all q = true := by
  induction l with
  | nil => rfl
  | cons a l ih =>
    by_cases h : q a
    · simp [List.takeWhile_cons, h, ih]
    · simp [List.takeWhile_cons, h]

theorem head?_dropWhile_neg (q : Char → Bool) (l : List Char) :
    ∀ a, (l.dropWhile q).head? = some a → q a = false := by
  induction l with
  | nil =>
    intro a h
    simp [List.dropWhile] at h
  | cons x l ih =>
    intro a h
    rw [List.dropWhile_cons] at h
    by_cases hx : q x
    · rw [if_pos hx] at h
      exact ih a h
    · rw [if_neg hx] at h
      simp at h
      rw [← h]
      simpa using hx

theorem translate_clientResponseError_typed (s : Nat) (m : String) :
    (translate_exception (.clientResponseError s m)).isTypedLibraryError = true := by
  by_cases h : s = HTTP_TOO_MANY_REQUESTS <;>
    simp [translate_exception, PyExc.isTimeoutErrorClass, h, PyExc.isTypedLibraryError]

theorem translate_raw_typed (e : PyExc) (he : e.isRawTransport = true) :
    (translate_exception e).isTypedLibraryError = true := by
  cases e with
  | timeoutError => rfl
  | clientConnectorError => rfl
  | serverTimeoutError => rfl
  | otherClientError m => rfl
  | clientResponseError s m => exact translate_clientResponseError_typed s m
  | apiError m sc rb => exact absurd he (by simp [PyExc.isRawTransport])
  | rateLimitError m sc rb => exact absurd he (by simp [PyExc.isRawTransport])
  | requestTimeoutError m => exact absurd he (by simp [PyExc.isRawTransport])

theorem handle_response_error_translated_typed (r : Response) (e : PyExc)
    (h : handle_response r = .error e) :
    (translate_exception e).isTypedLibraryError = true := by
  unfold handle_response at h
  split at h
  · rw [Except.error.injEq] at h
    rw [← h]
    exact translate_clientResponseError_typed r.status r.reason
  · split at h
    · exact absurd h (by simp)
    · split at h
      · exact absurd h (by simp)
      · rw [Except.error.injEq] at h
        rw [← h]
        rfl

theorem request_attempt_error_typed (o : TransportOutcome) (ho : o.isRawOutcome = true)
    (e : PyExc) (h : request_attempt o = .error e) : e.isTypedLibraryError = true := by
  cases o with
  | raised e0 =>
    simp only [request_attempt, Except.error.injEq] at h
    rw [← h]
    exact translate_raw_typed e0 (by simpa [TransportOutcome.isRawOutcome] using ho)
  | resp r =>
    simp only [request_attempt] at h
    cases hh : handle_response r with
    | ok v => rw [hh] at h; exact absurd h (by simp)
    | error e1 =>
      rw [hh] at h
      rw [Except.error.injEq] at h
      rw [← h]
      exact handle_response_error_translated_typed r e1 hh

theorem run_aux_error_typed (outs : List TransportOutcome) :
    ∀ fails, outs.all TransportOutcome.isRawOutcome = true →
      result_error_is_typed (run_request_aux fails outs) = true := by
  induction outs with
  | nil => intro fails _; rfl
  | cons o rest ih =>
    intro fails h
    rw [List.all_cons, Bool.and_eq_true] at h
    obtain ⟨ho, hrest⟩ := h
    show result_error_is_typed (run_request_aux fails (o :: rest)) = true
    unfold run_request_aux
    cases ha : request_attempt o with
    | ok v => rfl
    | error e =>
      have hte := request_attempt_error_typed o ho e ha
      dsimp only
      cases hp : retry_policy ⟨fails + 1, some e⟩ with
      | mk abandon d =>
        cases abandon with
        | true => simp [result_error_is_typed, hte]
        | false =>
          have hrec := ih (fails + 1) hrest
          cases hr : run_request_aux (fails + 1) rest with
          | none => simp [result_error_is_typed]
          | some res =>
            rw [hr] at hrec
            obtain ⟨rres, rc, rd⟩ := res
            cases rres with
            | ok v => simp [result_error_is_typed]
            | error e2 =>
              simp only [result_error_is_typed] at hrec ⊢
              exact hrec

/-- C1: evidence of the divergence. A first attempt failing with HTTP 500 is a
retryable failure by the claim (as the never-called classifier should_retry
confirms), yet the executor makes exactly one transport call and abandons
with zero delay, because the exception reaching the retry policy is the
translated APIError, which the policy does not classify as retryable. -/
theorem C1_http_500_abandoned_not_retried :
    run_request [.resp ⟨500, "Internal Server Error", .textBody ""⟩,
                 .resp ⟨200, "OK", .jsonBody (.obj [])⟩]
      = some ⟨.error (.apiError "HTTP 500: Internal Server Error" (some 500)
          (some "Internal Server Error")), 1, []⟩
    ∧ should_retry 3 (.clientResponseError 500 "Internal Server Error") 1 = true :=
  ⟨rfl, by decide⟩

/-- C2: evidence of the divergence. In the code the semaphore is released
inside the rate limit helper before the transport call starts; the shown
schedule of two rate limited requests is a valid interleaving under a single
permit in which both transport calls are simultaneously in flight, whereas
under the event order the claim describes (permit held across the call) no
valid single-permit interleaving has overlapping transport calls. -/
theorem C2_transport_calls_can_overlap_under_one_permit :
    isMergeOf overlap_trace (rate_limited_request_events 1) (rate_limited_request_events 2) = true
    ∧ semOk 1 overlap_trace = true
    ∧ hasOverlap overlap_trace = true
    ∧ (rate_limited_request_events 1).indexOf (Ev.release 1)
        < (rate_limited_request_events 1).indexOf (Ev.transStart 1)
    ∧ (allMerges (spec_request_events 1) (spec_request_events 2)).all
        (fun tr => !(semOk 1 tr) || !(hasOverlap tr)) = true := by decide

/-- C3: evidence of the divergence. For a sequence of three consecutive
retryable failures (HTTP 500) with maxAttempts 3, the claim demands exactly
three transport calls; the executor makes exactly one transport call and
raises the APIError of the first attempt. -/
theorem C3_exhaustion_never_reaches_three_calls :
    run_request (List.replicate 3 (.resp ⟨500, "Internal Server Error", .textBody ""⟩))
      = some ⟨.error (.apiError "HTTP 500: Internal Server Error" (some 500)
          (some "Internal Server Error")), 1, []⟩ := rfl

/-- C4: counterexample to the claim as stated. A 204 response is a 2xx
response, and with a body that fails JSON decoding request returns the empty
object as a success instead of raising an invalid-response-format failure,
because the 204 branch of response handling precedes JSON decoding. -/
theorem C4_counterexample :
    run_request [.resp ⟨204, "No Content", .textBody "not json"⟩]
      = some ⟨.ok (.obj []), 1, []⟩ := rfl

/-- C4: amended claim. For every 2xx transport response with status other
than 204 whose body fails JSON decoding, request raises the
invalid-response-format failure after exactly one transport call with no
retry and zero delay; the failure carries the status code and the full body
text, and the logged diagnostic body preview is capped at 200 characters. -/
theorem C4_amended (status : Nat) (reason text : String)
    (h2xx : 200 ≤ status ∧ status < 300) (h204 : status ≠ 204) :
    run_request [.resp ⟨status, reason, .textBody text⟩]
      = some ⟨.error (.apiError "Invalid response format" (some status) (some text)), 1, []⟩
    ∧ preview_len (decode_failure_log_preview text) ≤ 200 := by
  have h400 : ¬ status ≥ 400 := by omega
  have h204b : ¬ status = HTTP_NO_CONTENT := by simpa [HTTP_NO_CONTENT] using h204
  constructor
  · unfold run_request run_request_aux request_attempt handle_response
    dsimp only
    rw [if_neg h400, if_neg h204b]
    rfl
  · by_cases he : text.isEmpty
    · simp [decode_failure_log_preview, preview_len, he]
    · simp [decode_failure_log_preview, preview_len, he, List.length_take]

/-- C4: witness for the amended claim at a concrete input. -/
theorem C4_amended_witness :
    run_request [.resp ⟨200, "OK", .textBody "oops"⟩]
      = some ⟨.error (.apiError "Invalid response format" (some 200) (some "oops")), 1, []⟩
    ∧ preview_len (decode_failure_log_preview "oops") ≤ 200 :=
  C4_amended 200 "OK" "oops" (by decide) (by decide)

/-- C5: counterexample to the claim as stated. With a base URL carrying two
trailing slashes and an endpoint carrying two leading slashes, the code
strips ALL of them, whereas trimming exactly one slash on each side, as the
claim says, would leave two extra slashes at the join point. -/
theorem C5_counterexample :
    build_url "https://api.example.com//" "//core/vms" = "https://api.example.com/core/vms"
    ∧ build_url_claim_words "https://api.example.com//" "//core/vms"
        = "https://api.example.com///core/vms"
    ∧ build_url "https://api.example.com//" "//core/vms"
        ≠ build_url_claim_words "https://api.example.com//" "//core/vms" :=
  ⟨by decide, by decide, by decide⟩

/-- C5: amended claim. The request URL is the base URL with ALL trailing
slashes removed, then a single slash, then the endpoint with ALL leading
slashes removed: the URL splits as b ++ slash ++ e2 where b is a maximal
slash-trimmed front of the base URL (the dropped tail being all slashes), e2
a maximal slash-trimmed tail of the endpoint, so the join point holds
exactly one slash. -/
theorem C5_amended (base_url endpoint : String) :
    ∃ b e2 bs es : List Char,
      (build_url base_url endpoint).toList = b ++ '/' :: e2
      ∧ base_url.toList = b ++ bs ∧ bs.all (· == '/') = true
      ∧ endpoint.toList = es ++ e2 ∧ es.all (· == '/') = true
      ∧ b.getLast? ≠ some '/'
      ∧ e2.head? ≠ some '/' := by
  refine ⟨(base_url.toList.reverse.dropWhile (· == '/')).reverse,
          endpoint.toList.dropWhile (· == '/'),
          (base_url.toList.reverse.takeWhile (· == '/')).reverse,
          endpoint.toList.takeWhile (· == '/'),
          ?_, ?_, ?_, ?_, ?_, ?_, ?_⟩
  · show ((py_rstrip_slash base_url ++ "/") ++ py_lstrip_slash endpoint).data = _
    rw [String.data_append, String.data_append]
    simp [py_rstrip_slash, py_lstrip_slash]
  · conv_lhs => rw [← List.reverse_reverse base_url.toList,
      ← List.takeWhile_append_dropWhile (· == '/') base_url.toList.reverse]
    rw [List.reverse_append]
  · rw [List.all_reverse]
    exact all_takeWhile_eq_true (· == '/') base_url.toList.reverse
  · exact (List.takeWhile_append_dropWhile (· == '/') endpoint.toList).symm
  · exact all_takeWhile_eq_true (· == '/') endpoint.toList
  · rw [List.getLast?_reverse]
    intro h
    have := head?_dropWhile_neg (· == '/') base_url.toList.reverse '/' h
    simp at this
  · intro h
    have := head?_dropWhile_neg (· == '/') endpoint.toList '/' h
    simp at this

/-- C6: for every transport response with HTTP status 204, request returns
the empty JSON object as a success after one transport call, whatever the
response body holds. -/
theorem C6_status_204_returns_empty_object (reason : String) (body : RespBody) :
    run_request [.resp ⟨204, reason, body⟩] = some ⟨.ok (.obj []), 1, []⟩ := rfl

/-- C7: evidence of the divergence. The claim presumes a next attempt after
a retryable failure with count n below maxAttempts, delayed 0.5·2^(n−1)
seconds. After a first retryable failure (HTTP 503) the executor makes no
further transport call and sleeps no delay (one call, empty delay list),
because the retry policy, seeing the translated APIError, abandons with zero
delay. The deterministic schedule itself does live in the policy, but only
for raw aiohttp/asyncio exceptions, which never reach it: there the delays
are exactly 0.5 at failure count 1 and 1.0 at failure count 2 — with no
jitter, as the remaining conjuncts verify over the whole range the claim
quantifies (1 ≤ n < maxAttempts = 3, and abandonment with zero delay at
n = 3). -/
theorem C7_backoff_schedule_never_reached :
    run_request [.resp ⟨503, "Service Unavailable", .textBody ""⟩,
                 .resp ⟨503, "Service Unavailable", .textBody ""⟩]
      = some ⟨.error (.apiError "HTTP 503: Service Unavailable" (some 503)
          (some "Service Unavailable")), 1, []⟩
    ∧ retry_policy ⟨1, some (.apiError "HTTP 503: Service Unavailable" (some 503)
        (some "Service Unavailable"))⟩ = (true, 0)
    ∧ retry_policy ⟨1, some (.clientResponseError 503 "Service Unavailable")⟩ = (false, 1 / 2)
    ∧ retry_policy ⟨2, some (.clientResponseError 503 "Service Unavailable")⟩ = (false, 1)
    ∧ retry_policy ⟨3, some (.clientResponseError 503 "Service Unavailable")⟩ = (true, 0) := by
  refine ⟨rfl, rfl, ?_, ?_, rfl⟩ <;>
    norm_num [retry_policy, PyExc.isClientErrorClass, PyExc.isTimeoutErrorClass, MAX_RETRY_ATTEMPTS]

/-- C8: connect is idempotent — a second consecutive connect is a no-op on a
live session and creates no second transport — and close is idempotent: safe
when never connected, and a repeated close performs at most one transport
close operation in total. -/
theorem C8_connect_close_idempotent (st : ClientState) :
    connect (connect st) = connect st
    ∧ (connect st).session = SessionState.live
    ∧ (connect (connect st)).creations = (connect st).creations
    ∧ close (close st) = close st
    ∧ close initial_state = initial_state
    ∧ (close (close st)).transport_closes ≤ st.transport_closes + 1 := by
  obtain ⟨s, c, k⟩ := st
  cases s <;> simp [connect, close, initial_state]

/-- C9: for every stream of attempt outcomes in which the transport yields
responses or raw aiohttp/asyncio exceptions, any failure the request loop
raises is one of the typed library error kinds, and the translation maps
each raw failure class to the kind the taxonomy assigns: timeouts to
RequestTimeoutError, HTTP 429 to RateLimitError, other response and client
errors to APIError. -/
theorem C9_request_raises_only_typed_errors (outs : List TransportOutcome)
    (h : outs.all TransportOutcome.isRawOutcome = true) :
    result_error_is_typed (run_request outs) = true
    ∧ ∀ e : PyExc, e.isRawTransport = true → kind_ok e = true := by
  constructor
  · exact run_aux_error_typed outs 0 h
  · intro e he
    cases e with
    | timeoutError => rfl
    | clientConnectorError => rfl
    | serverTimeoutError => rfl
    | otherClientError m => rfl
    | clientResponseError s m =>
      by_cases h429 : s = HTTP_TOO_MANY_REQUESTS <;>
        simp [kind_ok, translate_exception, PyExc.isTimeoutErrorClass, h429,
              PyExc.isRateLimitKind, PyExc.isApiErrorKind]
    | apiError m sc rb => simp [PyExc.isRawTransport] at he
    | rateLimitError m sc rb => simp [PyExc.isRawTransport] at he
    | requestTimeoutError m => simp [PyExc.isRawTransport] at he

/-- C9: witness at a concrete input. -/
theorem C9_request_raises_only_typed_errors_witness :
    result_error_is_typed (run_request [.raised .clientConnectorError]) = true
    ∧ kind_ok .timeoutError = true := by
  have h := C9_request_raises_only_typed_errors [.raised .clientConnectorError] (by decide)
  exact ⟨h.1, h.2 .timeoutError (by decide)⟩

/-- C10: normalize_query_params keeps exactly the entries whose value is not
None, mapping True to the string true, False to the string false, and every
other non-None value to its string representation. -/
theorem C10_normalize_query_params_matches_claim (params : List (String × PyVal)) :
    normalize_query_params params = normalize_query_params_claim_words params := by
  induction params with
  | nil => rfl
  | cons kv rest ih =>
    obtain ⟨k, v⟩ := kv
    cases v with
    | pynone =>
      simpa [normalize_query_params, normalize_query_params_claim_words] using ih
    | pybool b =>
      cases b <;>
        simpa [normalize_query_params, normalize_query_params_claim_words] using ih
    | pystr s =>
      simpa [normalize_query_params, normalize_query_params_claim_words] using ih
    | pyint n =>
      simpa [normalize_query_params, normalize_query_params_claim_words] using ih

end HSMCP
